import Mathlib

set_option maxRecDepth 4000

/-!
Shallow embedding of the PDF-processing pipeline (extraction →
openai_extraction → openai_matching → transformation → chargement),
its run registry and the reference-catalog cache.

Python dictionaries are modelled as association lists of `String × Val`
(insertion order preserved, later writes override in place), Python
values as the JSON-like inductive `Val`, timestamps as integers, and
the external collaborators (PyPDF2 parsing, OpenAI calls, the CSV file
on disk) as explicit function parameters.
-/

/-- JSON-like values modelling the Python objects threaded through the
pipeline. -/
inductive Val where
  | null : Val
  | bool : Bool → Val
  | int : Int → Val
  | str : String → Val
  | list : List Val → Val
  | dict : List (String × Val) → Val

/-- A Python dict: association list, first occurrence of a key is the
binding (the operations below keep keys unique, as Python does). -/
abbrev Dict := List (String × Val)

/-- `d.get(k)` without default: first binding of `k`, if any. -/
def dget? (d : Dict) (k : String) : Option Val :=
  match d with
  | [] => Option.none
  | (k', v) :: rest => if k' = k then some v else dget? rest k

/-- `d.get(k, default)`. -/
def dgetD (d : Dict) (k : String) (v : Val) : Val :=
  (dget? d k).getD v

/-- `d.get(k)` (default `None`). -/
def dget0 (d : Dict) (k : String) : Val :=
  dgetD d k Val.null

/-- `k in d`. -/
def dhasKey (d : Dict) (k : String) : Bool :=
  (dget? d k).isSome

/-- The key list of a dict, in insertion order. -/
def dkeys (d : Dict) : List String :=
  d.map Prod.fst

/-- `d[k] = v`: updates the binding in place if `k` is present,
otherwise appends it (Python dict assignment semantics: position of an
existing key is preserved, a new key goes last). -/
def dinsert : Dict → String → Val → Dict
  | [], k, v => [(k, v)]
  | p :: rest, k, v => if p.1 = k then (k, v) :: rest else p :: dinsert rest k v

/-- `{**d, **e}`: entries of `e` applied over `d`, later keys override. -/
def dmerge (d e : Dict) : Dict :=
  e.foldl (fun acc p => dinsert acc p.1 p.2) d

/-- Python truthiness of a value. -/
def Val.truthy : Val → Bool
  | .null => false
  | .bool b => b
  | .int n => n != 0
  | .str s => s != ""
  | .list l => !l.isEmpty
  | .dict d => !d.isEmpty

/-- Coerce to a dict; non-dicts give the empty dict (used only where
the pipeline guarantees a dict is stored under the key). -/
def asDict : Val → Dict
  | .dict d => d
  | _ => []

/-- Coerce to a list; non-lists give the empty list (used only where
the pipeline guarantees a list is stored under the key). -/
def asList : Val → List Val
  | .list l => l
  | _ => []

/-- Coerce to a string; non-strings give "". -/
def asStr : Val → String
  | .str s => s
  | _ => ""

/-- Python `v == s` for a string literal `s`: true exactly when `v` is
that string (values of other types never equal a `str`). -/
def valIsStr (v : Val) (s : String) : Bool :=
  match v with
  | .str t => t == s
  | _ => false

/-- Does the character pattern occur at the head of the haystack? -/
def headMatches : List Char → List Char → Bool
  | [], _ => true
  | _ :: _, [] => false
  | p :: ps, c :: cs => (p == c) && headMatches ps cs

/-- Does the character pattern occur anywhere in the haystack? -/
def subSearch (pat : List Char) : List Char → Bool
  | [] => pat.isEmpty
  | c :: cs => headMatches pat (c :: cs) || subSearch pat cs

/-- Python substring test `pat in s`. -/
def strHasSub (s pat : String) : Bool :=
  subSearch pat.data s.data

/-- Python `str.lower()` (ASCII-adequate for this pipeline). -/
def pyLower (s : String) : String :=
  String.map Char.toLower s

/-- Python `str.split()` with no argument: split on whitespace runs,
dropping empty pieces. -/
def pySplit (s : String) : List String :=
  (s.split Char.isWhitespace).filter (fun w => w != "")

/-!
## Text Extractor — `app/tasks/extraction/pdf_extraction.py`

Base64 decoding plus `PyPDF2.PdfReader` are the external collaborator:
they are abstracted as a `parse` function from the stored base64 value
to either a parsed document or the caught exception's message.
`time.time()` is the integer parameter `t`.
-/

/-- A parsed PDF, as the extraction task consumes it: the per-page
`extract_text()` results in page order, the (possibly empty) document
metadata mapping and the decoded byte length. -/
structure PdfDoc where
  pages : List String
  metadata : List (String × Val)
  sizeBytes : Nat

/-- `pdf_text`: every page's text followed by a blank-line separator
(appended after each page, the last included). -/
def pdfJoinPages (pages : List String) : String :=
  String.join (pages.map (fun p => p ++ "\n\n"))

/-- `{k.lower().replace('/', '_'): v for k, v in metadata.items()}`. -/
def normPdfMeta (m : List (String × Val)) : Dict :=
  m.foldl (fun acc p => dinsert acc (String.replace (pyLower p.1) "/" "_") p.2) []

/-- The `extraction` task. -/
def extraction (parse : Val → Except String PdfDoc) (t : Int) (data : Dict) : Dict :=
  match dget? data "pdf_content_b64" with
  | some b64 =>
    match parse b64 with
    | .ok doc =>
      [("extracted", .dict
          [("pdf_filename", dgetD data "pdf_filename" (.str "document.pdf")),
           ("content_type", dgetD data "content_type" (.str "application/pdf")),
           ("pdf_size_bytes", .int doc.sizeBytes),
           ("num_pages", .int doc.pages.length),
           ("text_content", .str (pdfJoinPages doc.pages)),
           ("metadata", .dict (dmerge (normPdfMeta doc.metadata)
              [("source", .str "pdf_upload"), ("extraction_time", .int t)]))]),
       ("step", .str "extraction"),
       ("pdf_available", .bool true)]
    | .error e =>
      [("extracted", .dict
          [("pdf_filename", dgetD data "pdf_filename" (.str "document.pdf")),
           ("error", .str e),
           ("metadata", .dict
              [("source", .str "pdf_upload"),
               ("extraction_time", .int t),
               ("extraction_success", .bool false)])]),
       ("step", .str "extraction"),
       ("pdf_available", .bool true),
       ("extraction_error", .str e)]
  | Option.none =>
    [("extracted", .dict data), ("step", .str "extraction"), ("pdf_available", .bool false)]

/-!
## Field Extractor — `app/tasks/extraction/openai_extraction.py`

The OpenAI credential is the `Option String` parameter (`none` models
an unset `OPENAI_API_KEY`); the chat-completion round trip is the
`call` parameter, whose outcome is an `ApiReply`.
-/

def ERROR_NO_PDF_DATA : String :=
  "Pas de données PDF disponibles ou erreur lors de l'extraction initiale"

def ERROR_NO_TEXT_CONTENT : String :=
  "Aucun contenu textuel disponible pour l'analyse"

def ERROR_API_KEY_MISSING : String :=
  "Clé API OpenAI non configurée dans le fichier .env"

def FORMATION_SCHEMA : List String :=
  ["periode", "diplome", "etablissement", "description"]

def EXPERIENCE_SCHEMA : List String :=
  ["periode", "poste", "entreprise", "description", "competences"]

/-- Outcome of the external structured-extraction call: a raised
exception (including an empty reply, converted to `ValueError`), a
reply that is not valid JSON, or a parsed JSON value. -/
inductive ApiReply where
  | fail (msg : String)
  | badJson
  | json (v : Val)

/-- `_validate_formations`: non-mapping entries are skipped; mapping
entries are rebuilt with `""` defaults for the four schema fields, and
the (by construction always true) all-fields-present check is kept. -/
def validate_formations : List Val → List Val
  | [] => []
  | f :: rest =>
    match f with
    | .dict d =>
      let validated : Dict :=
        [("periode", dgetD d "periode" (.str "")),
         ("diplome", dgetD d "diplome" (.str "")),
         ("etablissement", dgetD d "etablissement" (.str "")),
         ("description", dgetD d "description" (.str ""))]
      if FORMATION_SCHEMA.all (fun k => dhasKey validated k) then
        .dict validated :: validate_formations rest
      else validate_formations rest
    | _ => validate_formations rest

/-- `_validate_experiences`: like the formations, plus the
`competences` field is coerced to a list (`[]` when not a list). -/
def validate_experiences : List Val → List Val
  | [] => []
  | e :: rest =>
    match e with
    | .dict d =>
      let competences : Val :=
        match dgetD d "competences" (.list []) with
        | .list l => .list l
        | _ => .list []
      let validated : Dict :=
        [("periode", dgetD d "periode" (.str "")),
         ("poste", dgetD d "poste" (.str "")),
         ("entreprise", dgetD d "entreprise" (.str "")),
         ("description", dgetD d "description" (.str "")),
         ("competences", competences)]
      if EXPERIENCE_SCHEMA.all (fun k => dhasKey validated k) then
        .dict validated :: validate_experiences rest
      else validate_experiences rest
    | _ => validate_experiences rest

/-- Python iteration over a JSON value: lists yield their elements,
strings yield one-character strings, mappings yield their keys; the
remaining JSON values are not iterable (iterating them raises). -/
def iterVals : Val → Option (List Val)
  | .list l => some l
  | .str s => some (s.data.map (fun c => .str (String.mk [c])))
  | .dict d => some (d.map (fun p => Val.str p.1))
  | _ => Option.none

def emptyFieldLists : Dict :=
  [("formations", .list []), ("experiences_professionnelles", .list [])]

/-- `parse_openai_response`: a reply that fails to parse
(`Option.none`), is not a mapping, or raises while iterating one of
the two lists degrades to two empty lists. -/
def parse_openai_response (reply : Option Val) : Dict :=
  match reply with
  | some (.dict d) =>
    match iterVals (dgetD d "formations" (.list [])),
          iterVals (dgetD d "experiences_professionnelles" (.list [])) with
    | some fs, some es =>
      [("formations", .list (validate_formations fs)),
       ("experiences_professionnelles", .list (validate_experiences es))]
    | _, _ => emptyFieldLists
  | some _ => emptyFieldLists
  | Option.none => emptyFieldLists

/-- `_create_error_response`: the literal entries first, then
`**original_data` applied over them (so the input's own `step` and
`success` bindings, when present, override the literal's). -/
def create_error_response (msg : String) (orig : Dict) : Dict :=
  dmerge
    [("openai_extracted", .dict [("error", .str msg), ("status", .str "error")]),
     ("step", .str "openai_extraction"),
     ("success", .bool false)]
    orig

/-- The success return of `openai_extraction` (same `**data`-last
layout as the error response). -/
def openaiExtractedOk (extractedData : Dict) (t : Int) (data : Dict) : Dict :=
  dmerge
    [("openai_extracted", .dict
        [("formations", dgetD extractedData "formations" (.list [])),
         ("experiences_professionnelles",
            dgetD extractedData "experiences_professionnelles" (.list [])),
         ("status", .str "success"),
         ("extraction_time", .int t)]),
     ("step", .str "openai_extraction"),
     ("success", .bool true)]
    data

/-- The `openai_extraction` task. -/
def openai_extraction (apiKey : Option String) (call : String → ApiReply)
    (t : Int) (data : Dict) : Dict :=
  if !(dgetD data "pdf_available" (.bool false)).truthy
      || dhasKey data "extraction_error" then
    create_error_response ERROR_NO_PDF_DATA data
  else
    let extractedData := asDict (dgetD data "extracted" (.dict []))
    let textContent := dgetD extractedData "text_content" (.str "")
    if !textContent.truthy then
      create_error_response ERROR_NO_TEXT_CONTENT data
    else
      match apiKey with
      | Option.none => create_error_response ERROR_API_KEY_MISSING data
      | some key =>
        if key == "" || key == "votre_clé_api_openai_ici" then
          create_error_response ERROR_API_KEY_MISSING data
        else
          match call (asStr textContent) with
          | .fail e =>
            create_error_response ("Erreur lors de l'extraction avec OpenAI: " ++ e) data
          | .badJson => openaiExtractedOk (parse_openai_response Option.none) t data
          | .json v => openaiExtractedOk (parse_openai_response (some v)) t data

/-!
## Category Matcher — `app/tasks/extraction/openai_matching.py`

The reference catalog obtained from `get_metiers_reference()` is the
`metiersRef` parameter; the per-experience OpenAI round trip
`find_matching_metiers_openai` is the `matchFn` parameter (arguments:
the `poste`, `entreprise` and `description` values), returning either
the match list or the caught exception's message.
-/

/-- One entry of the per-experience loop body: `{poste, matches}` on a
normal return (whether or not matches were found), plus an `error`
note when the lookup raised. -/
def matchEntry (matchFn : Val → Val → Val → Except String (List Val))
    (exp : Dict) (poste : Val) : Val :=
  match matchFn poste (dgetD exp "entreprise" (.str ""))
      (dgetD exp "description" (.str "")) with
  | .ok ms => .dict [("poste", poste), ("matches", .list ms)]
  | .error e => .dict [("poste", poste), ("matches", .list []), ("error", .str e)]

/-- The `for i, experience in enumerate(experiences)` loop: an
experience with a falsy `poste` is skipped (`continue`) with no entry;
every other experience contributes exactly one entry, in order. -/
def matchLoop (matchFn : Val → Val → Val → Except String (List Val)) :
    List Val → List Val
  | [] => []
  | e :: rest =>
    let d := asDict e
    let poste := dget0 d "poste"
    if !poste.truthy then matchLoop matchFn rest
    else matchEntry matchFn d poste :: matchLoop matchFn rest

/-- The three short-circuit returns of `openai_matching` (error /
warning payload, `**data` applied last). -/
def matchErrResult (msg status : String) (success : Bool) (data : Dict) : Dict :=
  dmerge
    [("openai_matching", .dict
        [("error", .str msg), ("status", .str status), ("metiers_matches", .list [])]),
     ("step", .str "openai_matching"),
     ("success", .bool success)]
    data

/-- The `openai_matching` task. -/
def openai_matching (metiersRef : List Val)
    (matchFn : Val → Val → Val → Except String (List Val)) (data : Dict) : Dict :=
  if !(dgetD data "success" (.bool false)).truthy
      || !dhasKey data "openai_extracted" then
    matchErrResult "Aucune donnée extraite par OpenAI disponible" "error" false data
  else
    let openaiData := asDict (dgetD data "openai_extracted" (.dict []))
    let experiences := dgetD openaiData "experiences_professionnelles" (.list [])
    if !experiences.truthy then
      matchErrResult "Aucune expérience professionnelle trouvée" "warning" true data
    else if metiersRef.isEmpty then
      matchErrResult "Impossible de charger les métiers de référence" "error" false data
    else
      dmerge
        [("openai_matching", .dict
            [("metiers_matches", .list (matchLoop matchFn (asList experiences))),
             ("status", .str "success")]),
         ("step", .str "openai_matching"),
         ("success", .bool true)]
        data

/-!
## Reference Catalog Cache — module-level state of `openai_matching.py`

`_metiers_cache` / `_metiers_cache_timestamp` are the `CacheState`;
`time.time()` and `os.path.getmtime` are the integer parameters
`currentTime` and `fileMtime` (`0` when `getmtime` raises `OSError`);
the CSV file on disk is the `MetiersFile` parameter.
-/

def CACHE_TTL : Int := 3600

structure CacheState where
  cache : List Val
  timestamp : Int

/-- What `load_metiers_reference` finds on disk: no file, a file none
of the attempted encodings decodes (or with no data rows), or the
decoded CSV rows as mappings. -/
inductive MetiersFile where
  | missing
  | undecodable
  | rows (rs : List Val)

/-- `load_metiers_reference`: `[]` on a missing or undecodable file or
when no rows were read; otherwise rows without a `code_rome` key (or
that are not mappings) are skipped and the rest are rebuilt in the
standardized shape. -/
def load_metiers_reference : MetiersFile → List Val
  | .missing => []
  | .undecodable => []
  | .rows rs =>
    if rs.isEmpty then []
    else rs.filterMap (fun r =>
      match r with
      | .dict d =>
        if dhasKey d "code_rome" then
          some (.dict
            [("id", dget0 d "code_rome"),
             ("code_rome", dget0 d "code_rome"),
             ("libelle", dget0 d "libelle_rome"),
             ("definition", .str ""),
             ("appellations", .list [])])
        else Option.none
      | _ => Option.none)

/-- `get_metiers_reference`: serve the cache when it is non-empty,
younger than the TTL and the file has not been modified since the last
load; otherwise reload (unconditionally overwriting the cache with the
load's result, `[]` included) and stamp the current time. -/
def get_metiers_reference (ttl fileMtime currentTime : Int)
    (file : MetiersFile) (s : CacheState) : List Val × CacheState :=
  let cacheValid :=
    !s.cache.isEmpty
      && decide (currentTime - s.timestamp < ttl)
      && decide (fileMtime ≤ s.timestamp)
  if cacheValid then (s.cache, s)
  else
    let loaded := load_metiers_reference file
    (loaded, ⟨loaded, currentTime⟩)

/-!
## Transformer — `app/tasks/transformation/pdf_transformation.py`
-/

/-- `Counter(words).most_common(n)`: distinct words keep first-
encounter order, stably sorted by descending count, first `n` kept. -/
def mostCommon (words : List String) (n : Nat) : List (String × Nat) :=
  let uniq := words.foldl (fun acc w => if acc.contains w then acc else acc ++ [w]) []
  let counted := uniq.map (fun w => (w, words.count w))
  (counted.mergeSort (fun a b => decide (b.2 ≤ a.2))).take n

/-- The keyword list: case-folded words longer than 3 characters, top
10 by frequency (empty when the text has no words). -/
def transformKeywords (textContent : String) : List Val :=
  if (pySplit textContent).length > 0 then
    let words := ((pySplit textContent).filter (fun w => w.length > 3)).map pyLower
    (mostCommon words 10).map (fun p => Val.str p.1)
  else []

/-- The `transformation` task (`time.time()` is `t`). -/
def transformation (t : Int) (data : Dict) : Dict :=
  let extractedData := asDict (dgetD data "extracted" (.dict []))
  let openaiData := asDict (dgetD data "openai_extracted" (.dict []))
  let openaiMatchingData := asDict (dgetD data "openai_matching" (.dict []))
  if (dgetD data "pdf_available" (.bool false)).truthy then
    if dhasKey data "extraction_error" then
      [("transformed", .dict
          [("error", .str ("Erreur lors de l'extraction: "
              ++ asStr (dget0 data "extraction_error"))),
           ("status", .str "error")]),
       ("step", .str "transformation"),
       ("success", .bool false)]
    else
      let textContent := asStr (dgetD extractedData "text_content" (.str ""))
      let wordCount := (pySplit textContent).length
      let charCount := textContent.length
      let cvData : Dict :=
        if (dgetD data "openai_extracted" (.dict [])).truthy
            && !valIsStr (dget0 openaiData "status") "error" then
          [("formations", dgetD openaiData "formations" (.list [])),
           ("experiences_professionnelles",
              dgetD openaiData "experiences_professionnelles" (.list [])),
           ("extracteur", .str "openai")]
        else []
      let cvData : Dict :=
        if (dgetD data "openai_matching" (.dict [])).truthy
            && !valIsStr (dget0 openaiMatchingData "status") "error" then
          dinsert cvData "metiers_matches"
            (dgetD openaiMatchingData "metiers_matches" (.list []))
        else cvData
      [("transformed", .dict
          [("original_filename", dgetD extractedData "pdf_filename" (.str "document.pdf")),
           ("statistics", .dict
              [("word_count", .int wordCount),
               ("character_count", .int charCount),
               ("page_count", dgetD extractedData "num_pages" (.int 0))]),
           ("content_analysis", .dict
              [("keywords", .list (transformKeywords textContent)),
               ("language", .str
                  (if strHasSub
                      (pyLower (asStr (dgetD (asDict (dgetD extractedData "metadata" (.dict [])))
                        "language" (.str "")))) "fr"
                   then "fr" else "en"))]),
           ("cv_data", .dict cvData),
           ("metadata", dgetD extractedData "metadata" (.dict [])),
           ("transformation_time", .int t)]),
       ("step", .str "transformation"),
       ("success", .bool true)]
  else
    [("transformed", .dict data), ("step", .str "transformation")]

/-!
## Loader — `app/tasks/chargement/pdf_chargement.py`

`time.time()` is `t`; `uuid.uuid4()` is the `storageRef` parameter.
-/

/-- The `chargement` task. -/
def chargement (t : Int) (storageRef : String) (data : Dict) : Dict :=
  let transformedData := asDict (dgetD data "transformed" (.dict []))
  if (dgetD data "success" (.bool true)).truthy then
    let loaded : Dict :=
      [("original_data", .dict transformedData),
       ("load_status", .str "success"),
       ("load_time", .int t),
       ("storage_reference", .str ("pdf_analysis_" ++ storageRef))]
    let loaded : Dict :=
      if dhasKey transformedData "statistics" then
        let stats := asDict (dgetD transformedData "statistics" (.dict []))
        let analysis := asDict (dgetD transformedData "content_analysis" (.dict []))
        let loaded := dinsert loaded "analysis_summary" (.dict
          [("filename", dgetD transformedData "original_filename" (.str "document.pdf")),
           ("word_count", dgetD stats "word_count" (.int 0)),
           ("page_count", dgetD stats "page_count" (.int 0)),
           ("top_keywords", .list ((asList (dgetD analysis "keywords" (.list []))).take 5)),
           ("language", dgetD analysis "language" (.str "unknown"))])
        let cvData := asDict (dgetD transformedData "cv_data" (.dict []))
        if dhasKey cvData "metiers_matches" then
          dinsert loaded "metiers_matches" (dget0 cvData "metiers_matches")
        else loaded
      else loaded
    [("loaded", .dict loaded), ("step", .str "load_complete"), ("success", .bool true)]
  else
    [("loaded", .dict
        [("error", .str "Échec de la transformation des données"),
         ("original_error", dgetD transformedData "error" (.str "Erreur inconnue")),
         ("load_status", .str "failed"),
         ("load_time", .int t)]),
     ("step", .str "load_complete"),
     ("success", .bool false)]

/-!
## Orchestrator and Run Registry — `app/workflows/pdf_workflow.py`

`active_workflows` is the `Registry`; the five Prefect tasks are
`Stage` parameters that return the next record or raise (so the
unhandled-fault path of the claims is statable); an unregistered run
identifier raises `KeyError` at the first registry write, before and
again inside the handler, leaving the registry untouched.
-/

abbrev Registry := List (String × Dict)

def regGet? (reg : Registry) (wid : String) : Option Dict :=
  match reg with
  | [] => Option.none
  | p :: rest => if p.1 = wid then some p.2 else regGet? rest wid

/-- `wid in active_workflows`. -/
def regHas (reg : Registry) (wid : String) : Bool :=
  (regGet? reg wid).isSome

/-- `active_workflows[wid][k] = v` (in-place mutation of the run's
entry; run identifiers are unique keys). -/
def regSet : Registry → String → String → Val → Registry
  | [], _, _, _ => []
  | p :: rest, wid, k, v =>
    if p.1 = wid then (p.1, dinsert p.2 k v) :: rest else p :: regSet rest wid k v

def regField? (reg : Registry) (wid k : String) : Option Val :=
  (regGet? reg wid).bind (fun d => dget? d k)

abbrev Stage := Dict → Except String Dict

/-- The pure stage chain of `workflow_process` (what the function
returns or re-raises, ignoring the registry side effects). -/
def pipelineChain (ext oext omatch trans charg : Stage) (inp : Dict) :
    Except String Dict :=
  match ext inp with
  | .error e => .error e
  | .ok d1 =>
    match oext d1 with
    | .error e => .error e
    | .ok d2 =>
      match omatch d2 with
      | .error e => .error e
      | .ok d3 =>
        match trans d3 with
        | .error e => .error e
        | .ok d4 => charg d4

/-- `workflow_process`: before each stage sets the run's `status` to
that stage's name; a raising stage is caught, `status = failed` and
`error` are recorded, and the fault is re-raised; on completion
`status = completed` and the loader's output is returned. -/
def workflow_process (ext oext omatch trans charg : Stage)
    (wid : String) (inputData : Option Dict) (reg : Registry) :
    Registry × Except String Dict :=
  match regGet? reg wid with
  | Option.none => (reg, .error ("KeyError: " ++ wid))
  | some _ =>
    let inp := inputData.getD [("initial", .str "data")]
    let reg := regSet reg wid "status" (.str "extraction")
    match ext inp with
    | .error e =>
      (regSet (regSet reg wid "status" (.str "failed")) wid "error" (.str e), .error e)
    | .ok d1 =>
      let reg := regSet reg wid "status" (.str "openai_extraction")
      match oext d1 with
      | .error e =>
        (regSet (regSet reg wid "status" (.str "failed")) wid "error" (.str e), .error e)
      | .ok d2 =>
        let reg := regSet reg wid "status" (.str "openai_matching")
        match omatch d2 with
        | .error e =>
          (regSet (regSet reg wid "status" (.str "failed")) wid "error" (.str e), .error e)
        | .ok d3 =>
          let reg := regSet reg wid "status" (.str "transformation")
          match trans d3 with
          | .error e =>
            (regSet (regSet reg wid "status" (.str "failed")) wid "error" (.str e), .error e)
          | .ok d4 =>
            let reg := regSet reg wid "status" (.str "chargement")
            match charg d4 with
            | .error e =>
              (regSet (regSet reg wid "status" (.str "failed")) wid "error" (.str e), .error e)
            | .ok d5 => (regSet reg wid "status" (.str "completed"), .ok d5)

/-!
## Derived observers and concrete fixtures used by the statements
-/

/-- Is the JSON value a mapping? -/
def isDictVal : Val → Bool
  | .dict _ => true
  | _ => false

/-- Drop a key's binding, if present. -/
def dremove (d : Dict) (k : String) : Dict :=
  d.filter (fun p => p.1 != k)

/-- The nondeterministic part of a Loader output: its `loaded` section
without `load_time` and `storage_reference` (the spec's "timestamps and
the generated storage reference may differ"). -/
def loadedStable (result : Dict) : Dict :=
  dremove (dremove (asDict (dget0 result "loaded")) "load_time") "storage_reference"

/-- A stage that completes, echoing its input. -/
def stageOk : Stage := fun d => .ok d

/-- A stage that raises with the given message. -/
def stageFail (msg : String) : Stage := fun _ => .error msg

/-- A parser that always raises (any invalid PDF payload). -/
def parseFail : Val → Except String PdfDoc := fun _ => .error "invalid pdf"

/-- A parser that always succeeds with the given document. -/
def parseConst (doc : PdfDoc) : Val → Except String PdfDoc := fun _ => .ok doc

/-- An extraction call that always raises. -/
def callFail : String → ApiReply := fun _ => .fail "connection error"

/-- A matching call that returns the given matches for every post. -/
def matchConst (ms : List Val) : Val → Val → Val → Except String (List Val) :=
  fun _ _ _ => .ok ms

theorem dget?_dinsert_self (d : Dict) (k : String) (v : Val) :
    dget? (dinsert d k v) k = some v := by
  induction d with
  | nil => simp [dinsert, dget?]
  | cons p rest ih =>
    by_cases hp : p.1 = k
    · simp [dinsert, hp, dget?]
    · simp [dinsert, hp, dget?, ih]

theorem dget?_dinsert_other (d : Dict) (k k' : String) (v : Val) (h : k' ≠ k) :
    dget? (dinsert d k v) k' = dget? d k' := by
  induction d with
  | nil => simp [dinsert, dget?, Ne.symm h]
  | cons p rest ih =>
    by_cases hp : p.1 = k
    · simp [dinsert, hp, dget?, Ne.symm h, ih]
    · by_cases hp' : p.1 = k'
      · simp [dinsert, hp, hp', dget?, h]
      · simp [dinsert, hp, hp', dget?, ih]

theorem mem_dkeys_iff (d : Dict) (k : String) :
    k ∈ dkeys d ↔ (dget? d k).isSome := by
  induction d with
  | nil => simp [dkeys, dget?]
  | cons p rest ih =>
    have hk : dkeys (p :: rest) = p.1 :: dkeys rest := by simp [dkeys]
    by_cases hp : p.1 = k
    · simp [hk, dget?, hp]
    · simp [hk, dget?, hp, ih, Ne.symm hp]

theorem mem_dkeys_dinsert (d : Dict) (k k' : String) (v : Val) :
    k' ∈ dkeys (dinsert d k v) ↔ k' ∈ dkeys d ∨ k' = k := by
  by_cases h : k' = k
  · subst h
    simp [mem_dkeys_iff, dget?_dinsert_self]
  · simp [mem_dkeys_iff, dget?_dinsert_other d k k' v h, h]

theorem dmerge_cons (d : Dict) (p : String × Val) (rest : Dict) :
    dmerge d (p :: rest) = dmerge (dinsert d p.1 p.2) rest := by
  simp [dmerge]

theorem mem_dkeys_dmerge (e : Dict) (k : String) :
    ∀ d : Dict, k ∈ dkeys (dmerge d e) ↔ k ∈ dkeys d ∨ k ∈ dkeys e := by
  induction e with
  | nil => intro d; simp [dmerge, dkeys]
  | cons p rest ih =>
    intro d
    have hk : dkeys (p :: rest) = p.1 :: dkeys rest := by simp [dkeys]
    rw [dmerge_cons, ih, mem_dkeys_dinsert, hk]
    simp
    tauto

theorem dget?_dmerge_of_not_mem (e : Dict) (k : String)
    (h : dget? e k = Option.none) :
    ∀ d : Dict, dget? (dmerge d e) k = dget? d k := by
  induction e with
  | nil => intro d; simp [dmerge]
  | cons p rest ih =>
    intro d
    by_cases hp : p.1 = k
    · simp [dget?, hp] at h
    · simp only [dget?, hp, if_false] at h
      rw [dmerge_cons, ih h, dget?_dinsert_other d p.1 k p.2 (Ne.symm hp)]

theorem dget?_dmerge_of_mem (e : Dict) (k : String) (v : Val)
    (hn : (dkeys e).Nodup) (h : dget? e k = some v) :
    ∀ d : Dict, dget? (dmerge d e) k = some v := by
  induction e with
  | nil => simp [dget?] at h
  | cons p rest ih =>
    intro d
    have hkc : dkeys (p :: rest) = p.1 :: dkeys rest := by simp [dkeys]
    rw [hkc] at hn
    have hnl : p.1 ∉ dkeys rest ∧ (dkeys rest).Nodup := by
      simpa using hn
    by_cases hp : p.1 = k
    · simp only [dget?, hp, if_true] at h
      have hrest : dget? rest k = Option.none := by
        rcases hv : dget? rest k with _ | w
        · rfl
        · exact absurd ((mem_dkeys_iff rest k).mpr (by simp [hv])) (hp ▸ hnl.1)
      have hv : p.2 = v := by injection h
      rw [dmerge_cons, dget?_dmerge_of_not_mem rest k hrest, hp, dget?_dinsert_self, hv]
    · simp only [dget?, hp, if_false] at h
      rw [dmerge_cons]
      exact ih hnl.2 h (dinsert d p.1 p.2)

/-- Every branch of `openai_extraction` returns `{...literals, **data}`,
with the literal part binding `step` to `"openai_extraction"` and
holding exactly the keys `openai_extracted`, `step`, `success`. -/
theorem openai_extraction_shape (apiKey : Option String) (call : String → ApiReply)
    (t : Int) (data : Dict) :
    ∃ b : Dict, openai_extraction apiKey call t data = dmerge b data
      ∧ dkeys b = ["openai_extracted", "step", "success"]
      ∧ dget? b "step" = some (.str "openai_extraction") := by
  unfold openai_extraction create_error_response openaiExtractedOk
  dsimp only
  repeat' split
  all_goals exact ⟨_, rfl, by simp [dkeys], by simp [dget?]⟩

/-- Every branch of `openai_matching` returns `{...literals, **data}`,
with the literal part binding `step` to `"openai_matching"` and
holding exactly the keys `openai_matching`, `step`, `success`. -/
theorem openai_matching_shape (metiersRef : List Val)
    (matchFn : Val → Val → Val → Except String (List Val)) (data : Dict) :
    ∃ b : Dict, openai_matching metiersRef matchFn data = dmerge b data
      ∧ dkeys b = ["openai_matching", "step", "success"]
      ∧ dget? b "step" = some (.str "openai_matching") := by
  unfold openai_matching matchErrResult
  dsimp only
  repeat' split
  all_goals exact ⟨_, rfl, by simp [dkeys], by simp [dget?]⟩

theorem regGet?_regSet_self (reg : Registry) (wid k : String) (v : Val) :
    regGet? (regSet reg wid k v) wid = (regGet? reg wid).map (fun d => dinsert d k v) := by
  induction reg with
  | nil => simp [regSet, regGet?]
  | cons p rest ih =>
    by_cases hp : p.1 = wid
    · simp [regSet, regGet?, hp]
    · simp [regSet, regGet?, hp, ih]

theorem regHas_regSet (reg : Registry) (wid k : String) (v : Val) (wid' : String) :
    regHas (regSet reg wid k v) wid' = regHas reg wid' := by
  induction reg with
  | nil => simp [regSet]
  | cons p rest ih =>
    by_cases hp : p.1 = wid
    · by_cases hp' : p.1 = wid'
      · simp [regSet, regHas, regGet?, hp, hp ▸ hp']
      · simp [regSet, regHas, regGet?, hp, hp', hp ▸ hp', ih]
    · simp only [regSet, hp, if_false]
      by_cases hp' : p.1 = wid'
      · simp [regHas, regGet?, hp']
      · simp only [regHas] at ih
        simp [regHas, regGet?, hp', ih]

theorem regField?_regSet_self (reg : Registry) (wid k : String) (v : Val)
    (h : regHas reg wid = true) :
    regField? (regSet reg wid k v) wid k = some v := by
  rcases hd : regGet? reg wid with _ | d
  · simp [regHas, hd] at h
  · simp [regField?, regGet?_regSet_self, hd, dget?_dinsert_self]

theorem regField?_regSet_other (reg : Registry) (wid k : String) (v : Val)
    (k' : String) (h : k' ≠ k) :
    regField? (regSet reg wid k v) wid k' = regField? reg wid k' := by
  rcases hd : regGet? reg wid with _ | d
  · simp [regField?, regGet?_regSet_self, hd]
  · simp [regField?, regGet?_regSet_self, hd, dget?_dinsert_other _ _ _ _ h]

/-- The per-experience loop is a filter (drop falsy `poste`) followed
by a map (one `matchEntry` per kept experience, in order). -/
theorem matchLoop_eq_filter_map (mf : Val → Val → Val → Except String (List Val))
    (exps : List Val) :
    matchLoop mf exps =
      (exps.filter (fun e => (dget0 (asDict e) "poste").truthy)).map
        (fun e => matchEntry mf (asDict e) (dget0 (asDict e) "poste")) := by
  induction exps with
  | nil => simp [matchLoop]
  | cons e rest ih =>
    by_cases h : (dget0 (asDict e) "poste").truthy
    · simp [matchLoop, h, List.filter, ih]
    · simp [matchLoop, h, List.filter, ih]

/-- C1 counterexample: a record with a sentinel key fed to the Text
Extractor loses that key — the stage returns a fresh record whose only
keys are `extracted`, `step`, `pdf_available`. -/
theorem C1_counterexample :
    "sentinel" ∈ dkeys [("sentinel", Val.str "s0")]
    ∧ "sentinel" ∉ dkeys (extraction parseFail 0 [("sentinel", Val.str "s0")])
    ∧ dkeys (extraction parseFail 0 [("sentinel", Val.str "s0")]) =
        ["extracted", "step", "pdf_available"] := by
  refine ⟨by simp [dkeys], by decide, by rfl⟩

/-- C1 (amended): only the Field Extractor and the Category Matcher
merge additively (`{..., **data}`), so each preserves every input key;
the other three stages rebuild the record from scratch. -/
theorem C1_additive_merge (apiKey : Option String) (call : String → ApiReply)
    (t : Int) (metiersRef : List Val)
    (matchFn : Val → Val → Val → Except String (List Val))
    (data : Dict) (k : String) (hk : k ∈ dkeys data) :
    k ∈ dkeys (openai_extraction apiKey call t data)
    ∧ k ∈ dkeys (openai_matching metiersRef matchFn data) := by
  obtain ⟨b1, he, -, -⟩ := openai_extraction_shape apiKey call t data
  obtain ⟨b2, hm, -, -⟩ := openai_matching_shape metiersRef matchFn data
  rw [he, hm]
  exact ⟨(mem_dkeys_dmerge data k b1).mpr (Or.inr hk),
         (mem_dkeys_dmerge data k b2).mpr (Or.inr hk)⟩

/-- C1 witness. -/
theorem C1_additive_merge_witness :
    "sentinel" ∈ dkeys (openai_extraction Option.none callFail 0 [("sentinel", Val.str "s0")]) := by
  have h := C1_additive_merge Option.none callFail 0 [] (matchConst [])
    [("sentinel", Val.str "s0")] "sentinel" (by simp [dkeys])
  exact h.1

/-- C2 counterexample: the Field Extractor's reply to a record already
carrying `step = "extraction"` (as every Text Extractor output does)
still carries `step = "extraction"`, not `"openai_extraction"` — the
trailing `**data` spread overrides the stage's own `step` entry. -/
theorem C2_counterexample :
    dget? (openai_extraction Option.none callFail 0
        [("pdf_available", Val.bool false), ("step", Val.str "extraction")]) "step"
      = some (Val.str "extraction")
    ∧ some (Val.str "extraction") ≠ some (Val.str "openai_extraction") := by
  refine ⟨rfl, by simp⟩

/-- C2 (amended): the Text Extractor, Transformer and Loader do stamp
their own `step` (`"extraction"`, `"transformation"`, `"load_complete"`);
the Field Extractor and Category Matcher stamp theirs only when the
input has no `step` binding — an existing binding wins. -/
theorem C2_step_field (parse : Val → Except String PdfDoc)
    (apiKey : Option String) (call : String → ApiReply)
    (metiersRef : List Val) (matchFn : Val → Val → Val → Except String (List Val))
    (t : Int) (storageRef : String) (data : Dict) :
    dget? (extraction parse t data) "step" = some (.str "extraction")
    ∧ dget? (transformation t data) "step" = some (.str "transformation")
    ∧ dget? (chargement t storageRef data) "step" = some (.str "load_complete")
    ∧ (dget? data "step" = Option.none →
        dget? (openai_extraction apiKey call t data) "step" = some (.str "openai_extraction")
        ∧ dget? (openai_matching metiersRef matchFn data) "step" = some (.str "openai_matching"))
    ∧ (∀ v, dget? data "step" = some v → (dkeys data).Nodup →
        dget? (openai_extraction apiKey call t data) "step" = some v
        ∧ dget? (openai_matching metiersRef matchFn data) "step" = some v) := by
  obtain ⟨b1, he, -, hs1⟩ := openai_extraction_shape apiKey call t data
  obtain ⟨b2, hm, -, hs2⟩ := openai_matching_shape metiersRef matchFn data
  refine ⟨?_, ?_, ?_, ?_, ?_⟩
  · unfold extraction
    repeat' split
    all_goals simp [dget?]
  · unfold transformation
    dsimp only
    repeat' split
    all_goals simp [dget?]
  · unfold chargement
    dsimp only
    repeat' split
    all_goals simp [dget?, dinsert]
  · intro hnone
    rw [he, hm, dget?_dmerge_of_not_mem data "step" hnone b1,
        dget?_dmerge_of_not_mem data "step" hnone b2]
    exact ⟨hs1, hs2⟩
  · intro v hv hnd
    rw [he, hm, dget?_dmerge_of_mem data "step" v hnd hv b1,
        dget?_dmerge_of_mem data "step" v hnd hv b2]
    exact ⟨rfl, rfl⟩

/-- C2 witness. -/
theorem C2_step_field_witness :
    dget? (openai_matching [] (matchConst [])
        [("step", Val.str "extraction")]) "step" = some (Val.str "extraction") := by
  have h := (C2_step_field parseFail Option.none callFail [] (matchConst []) 0 "r"
      [("step", Val.str "extraction")]).2.2.2.2
  exact (h (Val.str "extraction") rfl (by decide)).2

/-- C3 counterexample: TTL 3600, cache loaded at time 0 and non-empty,
file never modified; calls at 3599 and 3600 are one second apart, yet
the first serves the cache and the second reloads (here the file is
missing, so the reloaded value differs from the cached one). -/
theorem C3_counterexample :
    (get_metiers_reference CACHE_TTL 0 3599 MetiersFile.missing ⟨[.str "M1805"], 0⟩).1
      = [.str "M1805"]
    ∧ (get_metiers_reference CACHE_TTL 0 3600 MetiersFile.missing ⟨[.str "M1805"], 0⟩).1 = []
    ∧ (get_metiers_reference CACHE_TTL 0 3600 MetiersFile.missing ⟨[.str "M1805"], 0⟩).2.timestamp
      = 3600 := by
  refine ⟨rfl, rfl, rfl⟩

/-- C3 (amended): with a non-empty cache, two consecutive calls both
strictly within TTL of the *cache's load timestamp* (not merely of each
other) and with the file's mtime at most that timestamp serve the
identical cached list and leave the state unchanged; and whenever the
file's mtime is newer than the load timestamp, the call reloads, even
within the TTL window. -/
theorem C3_cache_ttl (ttl mtime t1 t2 : Int) (file1 file2 : MetiersFile)
    (s : CacheState) (hne : s.cache.isEmpty = false) :
    ((mtime ≤ s.timestamp) → (t1 - s.timestamp < ttl) → (t2 - s.timestamp < ttl) →
      (get_metiers_reference ttl mtime t1 file1 s).1 = s.cache
      ∧ (get_metiers_reference ttl mtime t1 file1 s).2 = s
      ∧ (get_metiers_reference ttl mtime t2 file2
          (get_metiers_reference ttl mtime t1 file1 s).2).1 = s.cache
      ∧ (get_metiers_reference ttl mtime t2 file2
          (get_metiers_reference ttl mtime t1 file1 s).2).2 = s)
    ∧ (s.timestamp < mtime →
      get_metiers_reference ttl mtime t2 file2 s =
        (load_metiers_reference file2, ⟨load_metiers_reference file2, t2⟩)) := by
  constructor
  · intro hmt h1 h2
    have e1 : get_metiers_reference ttl mtime t1 file1 s = (s.cache, s) := by
      simp [get_metiers_reference, hne, h1, hmt]
    have e2 : get_metiers_reference ttl mtime t2 file2 s = (s.cache, s) := by
      simp [get_metiers_reference, hne, h2, hmt]
    rw [e1]
    exact ⟨rfl, rfl, by rw [e2], by rw [e2]⟩
  · intro hmt
    simp [get_metiers_reference, not_le.mpr hmt]

/-- C3 witness. -/
theorem C3_cache_ttl_witness :
    (get_metiers_reference 3600 0 10 MetiersFile.missing ⟨[.str "M1805"], 0⟩).1
      = [.str "M1805"] := by
  have h := (C3_cache_ttl 3600 0 10 20 MetiersFile.missing MetiersFile.missing
      ⟨[.str "M1805"], 0⟩ (by decide)).1 (by decide) (by decide) (by decide)
  exact h.1

/-- C4 counterexample: cache loaded at time 0 with one entry; at time
4000 the TTL has lapsed and the backing file is missing, so the reload
fails — and the previously populated cache is overwritten with the
empty list (the claim says it should remain), while the caller receives
the empty-catalog signal. -/
theorem C4_counterexample :
    (get_metiers_reference CACHE_TTL 0 4000 MetiersFile.missing ⟨[.str "M1805"], 0⟩).2.cache = []
    ∧ (get_metiers_reference CACHE_TTL 0 4000 MetiersFile.missing ⟨[.str "M1805"], 0⟩).1 = [] := by
  exact ⟨rfl, rfl⟩

/-- C4 (amended): when the cache is stale (empty, TTL lapsed, or file
modified) and the reload fails, the caller receives the empty list and
the cache is *replaced* by the empty list with the load timestamp
updated — a previously populated cache is discarded, not retained. -/
theorem C4_failed_reload (ttl mtime t : Int) (file : MetiersFile) (s : CacheState)
    (hfail : load_metiers_reference file = [])
    (hstale : s.cache.isEmpty = true ∨ ttl ≤ t - s.timestamp ∨ s.timestamp < mtime) :
    get_metiers_reference ttl mtime t file s = ([], ⟨[], t⟩) := by
  have hvalid : (!s.cache.isEmpty
      && decide (t - s.timestamp < ttl)
      && decide (mtime ≤ s.timestamp)) = false := by
    rcases hstale with h | h | h
    · simp [h]
    · simp [not_lt.mpr h]
    · simp [not_le.mpr h]
  simp [get_metiers_reference, hvalid, hfail]

/-- C4 witness. -/
theorem C4_failed_reload_witness :
    get_metiers_reference 3600 0 4000 MetiersFile.missing ⟨[.str "M1805"], 0⟩
      = ([], ⟨[], 4000⟩) := by
  exact C4_failed_reload 3600 0 4000 MetiersFile.missing ⟨[.str "M1805"], 0⟩ rfl
    (Or.inr (Or.inl (by decide)))

/-- C6 counterexample: the formation record `{}` misses every required
field, yet the validator keeps it (normalized with empty-string
defaults) instead of dropping it. -/
theorem C6_counterexample :
    validate_formations [.dict []] =
      [.dict [("periode", .str ""), ("diplome", .str ""),
              ("etablissement", .str ""), ("description", .str "")]]
    ∧ (validate_formations [.dict []]).length = 1 := by
  exact ⟨rfl, rfl⟩

/-- C6 (amended): validation never drops a mapping record — exactly the
non-mapping entries are dropped; every kept record is normalized to
carry all required schema fields (missing ones defaulted). -/
theorem C6_validation (fs es : List Val) :
    (validate_formations fs).length = (fs.filter isDictVal).length
    ∧ (validate_experiences es).length = (es.filter isDictVal).length
    ∧ (∀ r ∈ validate_formations fs,
        FORMATION_SCHEMA.all (fun k => dhasKey (asDict r) k) = true)
    ∧ (∀ r ∈ validate_experiences es,
        EXPERIENCE_SCHEMA.all (fun k => dhasKey (asDict r) k) = true) := by
  refine ⟨?_, ?_, ?_, ?_⟩
  · induction fs with
    | nil => rfl
    | cons f rest ih =>
      cases f <;> simp [validate_formations, isDictVal, List.filter, ih,
        FORMATION_SCHEMA, dhasKey, dget?]
  · induction es with
    | nil => rfl
    | cons e rest ih =>
      cases e <;> simp [validate_experiences, isDictVal, List.filter, ih,
        EXPERIENCE_SCHEMA, dhasKey, dget?]
  · induction fs with
    | nil => intro r hr; simp [validate_formations] at hr
    | cons f rest ih =>
      intro r hr
      cases f with
      | dict d =>
        rw [show validate_formations (Val.dict d :: rest) =
            Val.dict [("periode", dgetD d "periode" (Val.str "")),
                      ("diplome", dgetD d "diplome" (Val.str "")),
                      ("etablissement", dgetD d "etablissement" (Val.str "")),
                      ("description", dgetD d "description" (Val.str ""))]
              :: validate_formations rest from rfl] at hr
        rcases List.mem_cons.mp hr with rfl | h2
        · rfl
        · exact ih r h2
      | null => exact ih r hr
      | bool b => exact ih r hr
      | int n => exact ih r hr
      | str s => exact ih r hr
      | list l => exact ih r hr
  · induction es with
    | nil => intro r hr; simp [validate_experiences] at hr
    | cons e rest ih =>
      intro r hr
      cases e with
      | dict d =>
        rw [show validate_experiences (Val.dict d :: rest) =
            Val.dict [("periode", dgetD d "periode" (Val.str "")),
                      ("poste", dgetD d "poste" (Val.str "")),
                      ("entreprise", dgetD d "entreprise" (Val.str "")),
                      ("description", dgetD d "description" (Val.str "")),
                      ("competences",
                        match dgetD d "competences" (Val.list []) with
                        | .list l => Val.list l
                        | _ => Val.list [])]
              :: validate_experiences rest from rfl] at hr
        rcases List.mem_cons.mp hr with rfl | h2
        · rfl
        · exact ih r h2
      | null => exact ih r hr
      | bool b => exact ih r hr
      | int n => exact ih r hr
      | str s => exact ih r hr
      | list l => exact ih r hr

/-- C6 witness. -/
theorem C6_validation_witness :
    (validate_formations [.dict [("diplome", .str "BTS")], .str "junk"]).length
      = ([Val.dict [("diplome", Val.str "BTS")], Val.str "junk"].filter isDictVal).length
    ∧ FORMATION_SCHEMA.all (fun k => dhasKey (asDict (Val.dict
        [("periode", Val.str ""), ("diplome", Val.str "BTS"),
         ("etablissement", Val.str ""), ("description", Val.str "")])) k) = true := by
  have h := C6_validation [.dict [("diplome", .str "BTS")], .str "junk"] []
  exact ⟨h.1, h.2.2.1 _ (List.mem_cons_self _ _)⟩

/-- In the success branch the `loaded` section's `load_status` is
`"success"`, whatever else gets inserted. -/
theorem chargement_status_success (data : Dict) (t : Int) (r : String)
    (h : (dgetD data "success" (.bool true)).truthy = true) :
    dget? (asDict (dget0 (chargement t r data) "loaded")) "load_status"
      = some (.str "success") := by
  unfold chargement
  dsimp only
  rw [h]
  simp only [if_true]
  split
  · split
    · simp [dget0, dgetD, dget?, asDict, dinsert]
    · simp [dget0, dgetD, dget?, asDict, dinsert]
  · simp [dget0, dgetD, dget?, asDict, dinsert]

/-- In the failure branch the `loaded` section's `load_status` is
`"failed"`. -/
theorem chargement_status_failed (data : Dict) (t : Int) (r : String)
    (h : (dgetD data "success" (.bool true)).truthy = false) :
    dget? (asDict (dget0 (chargement t r data) "loaded")) "load_status"
      = some (.str "failed") := by
  unfold chargement
  dsimp only
  rw [h]
  simp only [Bool.false_eq_true, if_false]
  simp [dget0, dgetD, dget?, asDict, dinsert]

/-- C9: the Loader on the same input, at different times and with
different generated storage references, yields the same `load_status`,
the same `analysis_summary`, the same forwarded `metiers_matches` —
indeed the whole `loaded` section agrees once `load_time` and
`storage_reference` are removed — and the same `step` and `success`. -/
theorem C9_loader_idempotent (data : Dict) (t1 t2 : Int) (r1 r2 : String) :
    dget? (asDict (dget0 (chargement t1 r1 data) "loaded")) "load_status"
      = dget? (asDict (dget0 (chargement t2 r2 data) "loaded")) "load_status"
    ∧ dget? (asDict (dget0 (chargement t1 r1 data) "loaded")) "analysis_summary"
      = dget? (asDict (dget0 (chargement t2 r2 data) "loaded")) "analysis_summary"
    ∧ dget? (asDict (dget0 (chargement t1 r1 data) "loaded")) "metiers_matches"
      = dget? (asDict (dget0 (chargement t2 r2 data) "loaded")) "metiers_matches"
    ∧ loadedStable (chargement t1 r1 data) = loadedStable (chargement t2 r2 data)
    ∧ dget? (chargement t1 r1 data) "step" = dget? (chargement t2 r2 data) "step"
    ∧ dget? (chargement t1 r1 data) "success" = dget? (chargement t2 r2 data) "success" := by
  unfold chargement loadedStable
  dsimp only
  split_ifs
  all_goals simp [dget0, dgetD, dget?, asDict, dremove, dinsert, List.filter]

/-- C10: with no `success` key at all the Loader takes the success
branch (`load_status = "success"`); the failure payload arises only
when a `success` binding is present and falsy; and the Transformer's
non-document passthrough output indeed omits the `success` key. -/
theorem C10_loader_success_default (data : Dict) (t : Int) (r : String) :
    (dget? data "success" = Option.none →
      dget? (asDict (dget0 (chargement t r data) "loaded")) "load_status"
        = some (.str "success"))
    ∧ (dget? (asDict (dget0 (chargement t r data) "loaded")) "load_status"
        = some (.str "failed") →
      ∃ v, dget? data "success" = some v ∧ v.truthy = false)
    ∧ ((dgetD data "pdf_available" (.bool false)).truthy = false →
      dhasKey (transformation t data) "success" = false) := by
  refine ⟨?_, ?_, ?_⟩
  · intro hnone
    exact chargement_status_success data t r (by simp [dgetD, hnone, Val.truthy])
  · intro hfail
    rcases hv : dget? data "success" with _ | v
    · have := chargement_status_success data t r (by simp [dgetD, hv, Val.truthy])
      rw [this] at hfail
      injection hfail with h1
      injection h1 with h2
      exact absurd h2 (by decide)
    · rcases hvt : v.truthy with _ | _
      · exact ⟨v, rfl, hvt⟩
      · have := chargement_status_success data t r (by simp [dgetD, hv, hvt])
        rw [this] at hfail
        injection hfail with h1
        injection h1 with h2
        exact absurd h2 (by decide)
  · intro hp
    unfold transformation
    dsimp only
    rw [hp]
    simp only [Bool.false_eq_true, if_false]
    simp [dhasKey, dget?]

/-- C10 witness. -/
theorem C10_loader_success_default_witness :
    dget? (asDict (dget0 (chargement 7 "ref"
        [("transformed", Val.dict [("x", Val.int 1)])]) "loaded")) "load_status"
      = some (Val.str "success") := by
  exact (C10_loader_success_default [("transformed", Val.dict [("x", Val.int 1)])] 7 "ref").1 rfl

/-- After the orchestrator's failure bookkeeping, the run's entry reads
`status = "failed"` and `error` = the fault message. -/
theorem regFail_fields (R : Registry) (wid e : String) (h : regHas R wid = true) :
    regField? (regSet (regSet R wid "status" (.str "failed")) wid "error" (.str e))
        wid "status" = some (.str "failed")
    ∧ regField? (regSet (regSet R wid "status" (.str "failed")) wid "error" (.str e))
        wid "error" = some (.str e) := by
  constructor
  · rw [regField?_regSet_other _ wid "error" (.str e) "status" (by decide)]
    exact regField?_regSet_self R wid "status" _ h
  · exact regField?_regSet_self _ wid "error" _ (by rw [regHas_regSet]; exact h)

/-- C5: for a registered run, `workflow_process` returns exactly what
the five-stage chain returns (a raising stage's fault is re-raised
unchanged); on a fault the registry entry ends with `status = "failed"`
and `error` = the fault's message; on normal completion it ends with
`status = "completed"` and the Loader's output is returned. -/
theorem C5_orchestrator (ext oext omatch trans charg : Stage) (wid : String)
    (inputData : Option Dict) (reg : Registry) (hreg : regHas reg wid = true) :
    (workflow_process ext oext omatch trans charg wid inputData reg).2
      = pipelineChain ext oext omatch trans charg
          (inputData.getD [("initial", .str "data")])
    ∧ (∀ e, (workflow_process ext oext omatch trans charg wid inputData reg).2 = .error e →
        regField? (workflow_process ext oext omatch trans charg wid inputData reg).1
            wid "status" = some (.str "failed")
        ∧ regField? (workflow_process ext oext omatch trans charg wid inputData reg).1
            wid "error" = some (.str e))
    ∧ (∀ d, (workflow_process ext oext omatch trans charg wid inputData reg).2 = .ok d →
        regField? (workflow_process ext oext omatch trans charg wid inputData reg).1
            wid "status" = some (.str "completed")) := by
  rcases hrg : regGet? reg wid with _ | entry
  · rw [regHas, hrg] at hreg
    simp at hreg
  · have hR : ∀ (R : Registry) (k : String) (v : Val),
        regHas (regSet R wid k v) wid = regHas R wid :=
      fun R k v => regHas_regSet R wid k v wid
    rcases hext : ext (inputData.getD [("initial", Val.str "data")]) with e | d1
    · have hw : workflow_process ext oext omatch trans charg wid inputData reg =
          (regSet (regSet (regSet reg wid "status" (.str "extraction"))
              wid "status" (.str "failed")) wid "error" (.str e), .error e) := by
        unfold workflow_process
        rw [hrg]
        dsimp only
        simp only [hext]
      rw [hw]
      refine ⟨?_, ?_, ?_⟩
      · unfold pipelineChain
        simp only [hext]
      · intro e' he'
        injection he' with h'
        subst h'
        exact regFail_fields _ wid e (by rw [hR]; exact hreg)
      · intro d hd
        exact absurd hd (by simp)
    · rcases hoext : oext d1 with e | d2
      · have hw : workflow_process ext oext omatch trans charg wid inputData reg =
            (regSet (regSet (regSet (regSet reg wid "status" (.str "extraction"))
                wid "status" (.str "openai_extraction"))
                wid "status" (.str "failed")) wid "error" (.str e), .error e) := by
          unfold workflow_process
          rw [hrg]
          dsimp only
          simp only [hext, hoext]
        rw [hw]
        refine ⟨?_, ?_, ?_⟩
        · unfold pipelineChain
          simp only [hext, hoext]
        · intro e' he'
          injection he' with h'
          subst h'
          exact regFail_fields _ wid e (by rw [hR, hR]; exact hreg)
        · intro d hd
          exact absurd hd (by simp)
      · rcases homa : omatch d2 with e | d3
        · have hw : workflow_process ext oext omatch trans charg wid inputData reg =
              (regSet (regSet (regSet (regSet (regSet reg wid "status" (.str "extraction"))
                  wid "status" (.str "openai_extraction"))
                  wid "status" (.str "openai_matching"))
                  wid "status" (.str "failed")) wid "error" (.str e), .error e) := by
            unfold workflow_process
            rw [hrg]
            dsimp only
            simp only [hext, hoext, homa]
          rw [hw]
          refine ⟨?_, ?_, ?_⟩
          · unfold pipelineChain
            simp only [hext, hoext, homa]
          · intro e' he'
            injection he' with h'
            subst h'
            exact regFail_fields _ wid e (by rw [hR, hR, hR]; exact hreg)
          · intro d hd
            exact absurd hd (by simp)
        · rcases htr : trans d3 with e | d4
          · have hw : workflow_process ext oext omatch trans charg wid inputData reg =
                (regSet (regSet (regSet (regSet (regSet (regSet reg
                    wid "status" (.str "extraction"))
                    wid "status" (.str "openai_extraction"))
                    wid "status" (.str "openai_matching"))
                    wid "status" (.str "transformation"))
                    wid "status" (.str "failed")) wid "error" (.str e), .error e) := by
              unfold workflow_process
              rw [hrg]
              dsimp only
              simp only [hext, hoext, homa, htr]
            rw [hw]
            refine ⟨?_, ?_, ?_⟩
            · unfold pipelineChain
              simp only [hext, hoext, homa, htr]
            · intro e' he'
              injection he' with h'
              subst h'
              exact regFail_fields _ wid e (by rw [hR, hR, hR, hR]; exact hreg)
            · intro d hd
              exact absurd hd (by simp)
          · rcases hch : charg d4 with e | d5
            · have hw : workflow_process ext oext omatch trans charg wid inputData reg =
                  (regSet (regSet (regSet (regSet (regSet (regSet (regSet reg
                      wid "status" (.str "extraction"))
                      wid "status" (.str "openai_extraction"))
                      wid "status" (.str "openai_matching"))
                      wid "status" (.str "transformation"))
                      wid "status" (.str "chargement"))
                      wid "status" (.str "failed")) wid "error" (.str e), .error e) := by
                unfold workflow_process
                rw [hrg]
                dsimp only
                simp only [hext, hoext, homa, htr, hch]
              rw [hw]
              refine ⟨?_, ?_, ?_⟩
              · unfold pipelineChain
                simp only [hext, hoext, homa, htr, hch]
              · intro e' he'
                injection he' with h'
                subst h'
                exact regFail_fields _ wid e (by rw [hR, hR, hR, hR, hR]; exact hreg)
              · intro d hd
                exact absurd hd (by simp)
            · have hw : workflow_process ext oext omatch trans charg wid inputData reg =
                  (regSet (regSet (regSet (regSet (regSet (regSet reg
                      wid "status" (.str "extraction"))
                      wid "status" (.str "openai_extraction"))
                      wid "status" (.str "openai_matching"))
                      wid "status" (.str "transformation"))
                      wid "status" (.str "chargement"))
                      wid "status" (.str "completed"), .ok d5) := by
                unfold workflow_process
                rw [hrg]
                dsimp only
                simp only [hext, hoext, homa, htr, hch]
              rw [hw]
              refine ⟨?_, ?_, ?_⟩
              · unfold pipelineChain
                simp only [hext, hoext, homa, htr, hch]
              · intro e' he'
                exact absurd he' (by simp)
              · intro d hd
                exact regField?_regSet_self _ wid "status" _
                  (by rw [hR, hR, hR, hR, hR]; exact hreg)

/-- C5 witness. -/
theorem C5_orchestrator_witness :
    regField? (workflow_process (stageFail "boom") stageOk stageOk stageOk stageOk
        "w" Option.none [("w", [("status", Val.str "initializing")])]).1
        "w" "status" = some (Val.str "failed")
    ∧ regField? (workflow_process (stageFail "boom") stageOk stageOk stageOk stageOk
        "w" Option.none [("w", [("status", Val.str "initializing")])]).1
        "w" "error" = some (Val.str "boom") := by
  have h := (C5_orchestrator (stageFail "boom") stageOk stageOk stageOk stageOk
      "w" Option.none [("w", [("status", Val.str "initializing")])] (by decide)).2.1
  exact h "boom" rfl

/-- C7: when the Field Extractor succeeded (`success` truthy, section
present) with a non-empty experience list and the reference catalog is
non-empty, the Category Matcher's `metiers_matches` holds exactly one
entry per experience with a truthy `poste`/title, in input order (the
`matchEntry` of that experience); experiences with an empty or missing
title are excluded and get no error entry; and the section's status is
`"success"`. -/
theorem C7_matcher_entries (metiersRef : List Val)
    (matchFn : Val → Val → Val → Except String (List Val))
    (data : Dict) (od : Dict) (exps : List Val)
    (hsucc : (dgetD data "success" (.bool false)).truthy = true)
    (hod : dget? data "openai_extracted" = some (.dict od))
    (hexps : dget? od "experiences_professionnelles" = some (.list exps))
    (hne : exps ≠ [])
    (hcat : metiersRef ≠ [])
    (hfresh : dget? data "openai_matching" = Option.none) :
    dget? (asDict (dget0 (openai_matching metiersRef matchFn data) "openai_matching"))
        "metiers_matches"
      = some (.list ((exps.filter (fun e => (dget0 (asDict e) "poste").truthy)).map
          (fun e => matchEntry matchFn (asDict e) (dget0 (asDict e) "poste"))))
    ∧ dget? (asDict (dget0 (openai_matching metiersRef matchFn data) "openai_matching"))
        "status" = some (.str "success") := by
  have hexps' : exps.isEmpty = false := by
    cases exps
    · exact absurd rfl hne
    · rfl
  have hcat' : metiersRef.isEmpty = false := by
    cases metiersRef
    · exact absurd rfl hcat
    · rfl
  have hout : openai_matching metiersRef matchFn data =
      dmerge
        [("openai_matching", .dict
            [("metiers_matches", .list (matchLoop matchFn exps)),
             ("status", .str "success")]),
         ("step", .str "openai_matching"),
         ("success", .bool true)]
        data := by
    unfold openai_matching
    rw [hsucc]
    simp only [dhasKey, hod, Option.isSome_some, Bool.not_true, Bool.or_self,
      Bool.false_eq_true, if_false]
    simp only [dgetD, hod, Option.getD_some, asDict, hexps, Val.truthy, hexps',
      Bool.not_false, if_true, hcat', asList]
    simp [hexps']
  rw [hout]
  have hsec : dget? (dmerge
      [("openai_matching", .dict
          [("metiers_matches", .list (matchLoop matchFn exps)),
           ("status", .str "success")]),
       ("step", .str "openai_matching"),
       ("success", .bool true)] data) "openai_matching"
      = some (.dict [("metiers_matches", .list (matchLoop matchFn exps)),
                     ("status", .str "success")]) := by
    rw [dget?_dmerge_of_not_mem data "openai_matching" hfresh]
    rfl
  rw [dget0, dgetD, hsec]
  constructor
  · rw [Option.getD_some, matchLoop_eq_filter_map matchFn exps]
    rfl
  · rfl

/-- C7 witness. -/
theorem C7_matcher_entries_witness :
    dget? (asDict (dget0 (openai_matching [.str "cat"] (matchConst [])
        [("success", Val.bool true),
         ("openai_extracted", Val.dict
            [("experiences_professionnelles", Val.list
                [Val.dict [("poste", Val.str "Comptable")],
                 Val.dict [("poste", Val.str "")]])])]) "openai_matching"))
        "metiers_matches"
      = some (.list [Val.dict [("poste", Val.str "Comptable"),
                               ("matches", Val.list [])]]) := by
  have h := (C7_matcher_entries [.str "cat"] (matchConst [])
      [("success", Val.bool true),
       ("openai_extracted", Val.dict
          [("experiences_professionnelles", Val.list
              [Val.dict [("poste", Val.str "Comptable")],
               Val.dict [("poste", Val.str "")]])])]
      [("experiences_professionnelles", Val.list
          [Val.dict [("poste", Val.str "Comptable")],
           Val.dict [("poste", Val.str "")]])]
      [Val.dict [("poste", Val.str "Comptable")], Val.dict [("poste", Val.str "")]]
      rfl rfl rfl (by simp) (by simp) rfl).1
  exact h.trans (by rfl)

/-- With text present but no credential configured, the Field Extractor
returns its missing-credential error response. -/
theorem openai_extraction_no_key (call : String → ApiReply) (t : Int) (data : Dict)
    (s : String)
    (hpa : (dgetD data "pdf_available" (.bool false)).truthy = true)
    (herr : dhasKey data "extraction_error" = false)
    (htc : dgetD (asDict (dgetD data "extracted" (.dict []))) "text_content" (.str "")
      = .str s)
    (hs : s ≠ "") :
    openai_extraction Option.none call t data
      = create_error_response ERROR_API_KEY_MISSING data := by
  unfold openai_extraction
  rw [hpa, herr]
  simp only [Bool.not_true, Bool.or_false, Bool.false_eq_true, if_false]
  simp [htc, Val.truthy, hs, bne_iff_ne]

/-- C8: a parsable, text-bearing document with no OpenAI credential:
the Field Extractor reports `status = "error"` with the
missing-credential message; the Transformer still computes the
word/char/page statistics and reports `success = true`; the Loader
reports `load_status = "success"` and its `loaded` section carries no
`metiers_matches`. -/
theorem C8_no_credential (parse : Val → Except String PdfDoc)
    (call : String → ApiReply) (metiersRef : List Val)
    (matchFn : Val → Val → Val → Except String (List Val))
    (d0 : Dict) (bv : Val) (doc : PdfDoc) (t1 t2 t3 t4 : Int) (ref : String)
    (hb : dget? d0 "pdf_content_b64" = some bv)
    (hp : parse bv = .ok doc)
    (htext : pdfJoinPages doc.pages ≠ "") :
    dget? (asDict (dget0 (openai_extraction Option.none call t2 (extraction parse t1 d0))
        "openai_extracted")) "status" = some (.str "error")
    ∧ dget? (asDict (dget0 (openai_extraction Option.none call t2 (extraction parse t1 d0))
        "openai_extracted")) "error" = some (.str ERROR_API_KEY_MISSING)
    ∧ dget? (asDict (dget0 (transformation t3 (openai_matching metiersRef matchFn
        (openai_extraction Option.none call t2 (extraction parse t1 d0))))
        "transformed")) "statistics"
      = some (.dict
          [("word_count", .int (pySplit (pdfJoinPages doc.pages)).length),
           ("character_count", .int (pdfJoinPages doc.pages).length),
           ("page_count", .int doc.pages.length)])
    ∧ dget? (transformation t3 (openai_matching metiersRef matchFn
        (openai_extraction Option.none call t2 (extraction parse t1 d0)))) "success"
      = some (.bool true)
    ∧ dget? (asDict (dget0 (chargement t4 ref (transformation t3 (openai_matching
        metiersRef matchFn (openai_extraction Option.none call t2
        (extraction parse t1 d0))))) "loaded")) "load_status" = some (.str "success")
    ∧ dhasKey (asDict (dget0 (chargement t4 ref (transformation t3 (openai_matching
        metiersRef matchFn (openai_extraction Option.none call t2
        (extraction parse t1 d0))))) "loaded")) "metiers_matches" = false := by
  have hd1 : extraction parse t1 d0 =
      [("extracted", Val.dict
          [("pdf_filename", dgetD d0 "pdf_filename" (Val.str "document.pdf")),
           ("content_type", dgetD d0 "content_type" (Val.str "application/pdf")),
           ("pdf_size_bytes", Val.int doc.sizeBytes),
           ("num_pages", Val.int doc.pages.length),
           ("text_content", Val.str (pdfJoinPages doc.pages)),
           ("metadata", Val.dict (dmerge (normPdfMeta doc.metadata)
              [("source", Val.str "pdf_upload"), ("extraction_time", Val.int t1)]))]),
       ("step", Val.str "extraction"),
       ("pdf_available", Val.bool true)] := by
    unfold extraction
    simp only [hb, hp]
  have hoe : openai_extraction Option.none call t2 (extraction parse t1 d0) =
      [("openai_extracted", Val.dict
          [("error", Val.str ERROR_API_KEY_MISSING), ("status", Val.str "error")]),
       ("step", Val.str "extraction"),
       ("success", Val.bool false),
       ("extracted", Val.dict
          [("pdf_filename", dgetD d0 "pdf_filename" (Val.str "document.pdf")),
           ("content_type", dgetD d0 "content_type" (Val.str "application/pdf")),
           ("pdf_size_bytes", Val.int doc.sizeBytes),
           ("num_pages", Val.int doc.pages.length),
           ("text_content", Val.str (pdfJoinPages doc.pages)),
           ("metadata", Val.dict (dmerge (normPdfMeta doc.metadata)
              [("source", Val.str "pdf_upload"), ("extraction_time", Val.int t1)]))]),
       ("pdf_available", Val.bool true)] := by
    rw [hd1]
    rw [openai_extraction_no_key call t2
      [("extracted", Val.dict
          [("pdf_filename", dgetD d0 "pdf_filename" (Val.str "document.pdf")),
           ("content_type", dgetD d0 "content_type" (Val.str "application/pdf")),
           ("pdf_size_bytes", Val.int doc.sizeBytes),
           ("num_pages", Val.int doc.pages.length),
           ("text_content", Val.str (pdfJoinPages doc.pages)),
           ("metadata", Val.dict (dmerge (normPdfMeta doc.metadata)
              [("source", Val.str "pdf_upload"), ("extraction_time", Val.int t1)]))]),
       ("step", Val.str "extraction"),
       ("pdf_available", Val.bool true)]
      (pdfJoinPages doc.pages) rfl rfl rfl htext]
    rfl
  have hd3 : openai_matching metiersRef matchFn (openai_extraction Option.none call t2
      (extraction parse t1 d0)) =
      [("openai_matching", Val.dict
          [("error", Val.str "Aucune donnée extraite par OpenAI disponible"),
           ("status", Val.str "error"), ("metiers_matches", Val.list [])]),
       ("step", Val.str "extraction"),
       ("success", Val.bool false),
       ("openai_extracted", Val.dict
          [("error", Val.str ERROR_API_KEY_MISSING), ("status", Val.str "error")]),
       ("extracted", Val.dict
          [("pdf_filename", dgetD d0 "pdf_filename" (Val.str "document.pdf")),
           ("content_type", dgetD d0 "content_type" (Val.str "application/pdf")),
           ("pdf_size_bytes", Val.int doc.sizeBytes),
           ("num_pages", Val.int doc.pages.length),
           ("text_content", Val.str (pdfJoinPages doc.pages)),
           ("metadata", Val.dict (dmerge (normPdfMeta doc.metadata)
              [("source", Val.str "pdf_upload"), ("extraction_time", Val.int t1)]))]),
       ("pdf_available", Val.bool true)] := by
    rw [hoe]
    rfl
  have hd4 : transformation t3 (openai_matching metiersRef matchFn
      (openai_extraction Option.none call t2 (extraction parse t1 d0))) =
      [("transformed", Val.dict
          [("original_filename", dgetD d0 "pdf_filename" (Val.str "document.pdf")),
           ("statistics", Val.dict
              [("word_count", Val.int (pySplit (pdfJoinPages doc.pages)).length),
               ("character_count", Val.int (pdfJoinPages doc.pages).length),
               ("page_count", Val.int doc.pages.length)]),
           ("content_analysis", Val.dict
              [("keywords", Val.list (transformKeywords (pdfJoinPages doc.pages))),
               ("language", Val.str
                  (if strHasSub (pyLower (asStr (dgetD (dmerge (normPdfMeta doc.metadata)
                      [("source", Val.str "pdf_upload"), ("extraction_time", Val.int t1)])
                      "language" (Val.str "")))) "fr"
                   then "fr" else "en"))]),
           ("cv_data", Val.dict []),
           ("metadata", Val.dict (dmerge (normPdfMeta doc.metadata)
              [("source", Val.str "pdf_upload"), ("extraction_time", Val.int t1)])),
           ("transformation_time", Val.int t3)]),
       ("step", Val.str "transformation"),
       ("success", Val.bool true)] := by
    rw [hd3]
    rfl
  refine ⟨?_, ?_, ?_, ?_, ?_, ?_⟩
  · rw [hoe]
    rfl
  · rw [hoe]
    rfl
  · rw [hd4]
    rfl
  · rw [hd4]
    rfl
  · rw [hd4]
    rfl
  · rw [hd4]
    rfl

/-- C8 witness. -/
theorem C8_no_credential_witness :
    dget? (asDict (dget0 (chargement 3 "w" (transformation 2 (openai_matching []
        (matchConst []) (openai_extraction Option.none callFail 1
        (extraction (parseConst ⟨["Hello world"], [], 8⟩) 0
          [("pdf_content_b64", Val.str "JVBERi0=")]))))) "loaded")) "load_status"
      = some (Val.str "success") := by
  exact (C8_no_credential (parseConst ⟨["Hello world"], [], 8⟩) callFail []
    (matchConst []) [("pdf_content_b64", Val.str "JVBERi0=")] (Val.str "JVBERi0=")
    ⟨["Hello world"], [], 8⟩ 0 1 2 3 "w" rfl rfl (by decide)).2.2.2.2.1
